import Mathlib

/-!
Verification of the check-in scheduling core (lib/flight.py and lib/account.py).

Shallow embedding conventions:
* Instants and naive datetimes are modeled as `Int` seconds (the code compares and
  subtracts `datetime` values; only the ordered additive structure matters).
* A pytz timezone is modeled as a function `Int → Int` mapping a *local* naive
  datetime to its UTC offset in seconds east, matching `tz.localize(d).utcoffset()`:
  `localize` picks the offset valid at the given local time, so the offset may
  depend on the local instant (DST).
* The static airport-timezone table (`utils/airport_timezones.json` + pytz) is an
  external data file; it is passed in as a map `tzmap : String → Int → Int` from
  airport code to timezone.
* Side effects are reified as event traces: starting a check-in timer process,
  invoking `Account.send_notification`, and issuing an HTTP request each append an
  event.  Console `print` calls are not modeled.
* An uncaught Python exception is reified as an `Option PyErr` alongside the trace
  and the (mutated-in-place, hence surviving) account state.
* `time.sleep` raises `ValueError` when its argument is negative; a sleep with a
  nonnegative argument is recorded as an event.
-/

namespace CheckIn

/-! ### Time handling (lib/flight.py) -/

/-- Model of `Flight._convert_to_utc` (flight.py lines 56-62): localize the naive departure
datetime in the airport timezone, convert to UTC, drop tzinfo.  With the offset
function `airport_timezone`, the UTC instant is the local time minus the offset
valid at that local time. -/
def convert_to_utc (flight_date : Int) (airport_timezone : Int → Int) : Int :=
  flight_date - airport_timezone flight_date

/-- The check-in instant computed by `Flight._set_check_in` (flight.py line 66):
`self.departure_time - timedelta(days=1, seconds=1)`. -/
def check_in_time (departure_time : Int) : Int :=
  departure_time - (24 * 60 * 60 + 1)

/-- Events of the timer process run by `Flight._set_check_in`. -/
inductive WEv
  | sleep (secs : Int)
  | refresh_headers
deriving DecidableEq

/-- The error message of CPython `time.sleep` on a negative argument. -/
def sleepLengthError : String := "ValueError: sleep length must be non-negative"

/-- Model of `Flight._wait_for_check_in` (flight.py lines 70-90).  Inputs: the check-in
instant and the two `datetime.utcnow()` readings (line 71 and line 88).  Returns
the trace of sleeps/refreshes and an error if the final `time.sleep` receives a
negative argument (only the first sleep is guarded by `if sleep_time > 0`). -/
def wait_for_check_in (checkin_time now0 now1 : Int) : List WEv × Option String :=
  if checkin_time ≤ now0 then ([], none)
  else
    let sleep_time := checkin_time - now0 - 10 * 60
    let evs := if sleep_time > 0 then [WEv.sleep sleep_time, WEv.refresh_headers] else []
    let sleep_time2 := checkin_time - now1
    if sleep_time2 < 0 then (evs, some sleepLengthError)
    else (evs ++ [WEv.sleep sleep_time2], none)

/-- The wait phase exactly as claim C4 states it: skip entirely when the check-in
instant is past; otherwise sleep until ten minutes before, refresh on waking, then
sleep the remainder, "skipping any sleep whose remaining time is zero or
negative".  Written from the words of the specification, for comparison with
`wait_for_check_in` (which is translated from the source). -/
def claim_wait_for_check_in (checkin_time now0 now1 : Int) : List WEv × Option String :=
  if checkin_time < now0 then ([], none)
  else
    let sleep_time := checkin_time - now0 - 10 * 60
    let evs := if sleep_time > 0 then [WEv.sleep sleep_time, WEv.refresh_headers] else []
    let sleep_time2 := checkin_time - now1
    (evs ++ (if sleep_time2 > 0 then [WEv.sleep sleep_time2] else []), none)

/-- Model of `Flight._set_check_in` (flight.py lines 64-68): compute the check-in instant,
wait, then check in.  The `Bool` records whether control reached `_check_in`
(false when the wait raised). -/
def set_check_in (departure_time now0 now1 : Int) : List WEv × Option String × Bool :=
  let checkin_time := check_in_time departure_time
  let r := wait_for_check_in checkin_time now0 now1
  match r.2 with
  | some e => (r.1, some e, false)
  | none => (r.1, none, true)

/-! ### Data model (lib/flight.py, lib/account.py) -/

/-- The fields of one bound (one entry of
`response["viewReservationViewPage"]["bounds"]`) that the code reads.
`departureDateTime` is the naive local datetime parsed by
`datetime.strptime(f"(departureDate) (departureTime)", "%Y-%m-%d %H:%M")`. -/
structure Bound where
  departureStatus : String
  departureAirportName : String
  departureAirportCode : String
  arrivalAirportName : String
  departureDateTime : Int
deriving DecidableEq

/-- The fields of a `Flight` object (flight.py lines 23-28). -/
structure Flight where
  confirmation_number : String
  departure_time : Int
  departure_airport : String
  destination_airport : String
deriving DecidableEq

/-- Model of `Flight._get_flight_time` (flight.py lines 39-45): look up the departure
timezone of the departure airport by code and convert the local departure datetime to UTC. -/
def get_flight_time (tzmap : String → Int → Int) (b : Bound) : Int :=
  convert_to_utc b.departureDateTime (tzmap b.departureAirportCode)

/-- The field assignments of `Flight.__init__` / `Flight._get_flight_info`
(flight.py lines 23-37).  The `Process(...).start()` side effect of the
constructor is emitted as an event at each construction site. -/
def mkFlight (tzmap : String → Int → Int) (confirmation_number : String) (b : Bound) : Flight :=
  { confirmation_number := confirmation_number
    departure_time := get_flight_time tzmap b
    departure_airport := b.departureAirportName
    destination_airport := b.arrivalAirportName }

/-- The account state mutated by lib/account.py (identity and tracked flights). -/
structure Account where
  first_name : String
  last_name : String
  flights : List Flight
deriving DecidableEq

/-- Modelled from the spec: `NotificationLevel` lives in lib/general.py, which is
not under src/; the spec states ERROR ranks above INFO and that lower numeric
values are filtered against the configured minimum. -/
def NotificationLevel.INFO : Int := 1

/-- Modelled from the spec: see `NotificationLevel.INFO`. -/
def NotificationLevel.ERROR : Int := 2

/-- Observable side effects of the account/flight code: spawning the check-in
timer process of a flight (flight.py lines 31-32), calling
`Account.send_notification`, and issuing an HTTP request via `make_request`. -/
inductive Ev
  | spawnTimer (f : Flight)
  | notifyCall (body : String) (level : Option Int)
  | request (method : String) (site : String)
deriving DecidableEq

/-- Reified uncaught Python exceptions. -/
inductive PyErr
  | attributeError (msg : String)
deriving DecidableEq

/-- The exception raised by `flight.schedule_check_in()` at account.py line 79:
class `Flight` (flight.py) defines no method `schedule_check_in`. -/
def schedule_check_in_missing : PyErr :=
  PyErr.attributeError "Flight object has no attribute schedule_check_in"

/-- Result of running a piece of account code: its event trace, an uncaught
exception if one escaped, and the account state (which, being mutated in place,
survives an exception). -/
structure Outcome where
  events : List Ev
  err : Option PyErr
  account : Account
deriving DecidableEq

/-- Model of `Account._flight_is_scheduled` (account.py lines 82-91): linear scan with
early return; matches on the (departure instant, departure airport, destination
airport) triple and ignores the confirmation number. -/
def flight_is_scheduled (flights : List Flight) (flight : Flight) : Bool :=
  match flights with
  | [] => false
  | scheduled_flight :: rest =>
      if flight.departure_time = scheduled_flight.departure_time
          ∧ flight.departure_airport = scheduled_flight.departure_airport
          ∧ flight.destination_airport = scheduled_flight.destination_airport
      then true
      else flight_is_scheduled rest flight

/-- The error message built at account.py lines 61-65. -/
def reservation_error_message (first_name last_name confirmation_number err : String) : String :=
  "Failed to retrieve reservation for " ++ first_name ++ " " ++ last_name ++
    " with confirmation number " ++ confirmation_number ++ ". Reason: " ++ err ++
    ".\nMake sure the flight information is correct and try again.\n"

/-- The `for flight_info in reservation_info` loop of
`Account._get_reservation_info` (account.py lines 73-80).  Each iteration
constructs a `Flight` (whose constructor spawns the timer process); when the
bound is not DEPARTED and not already tracked, the code calls
`flight.schedule_check_in()`, a method `Flight` does not define, so an
`AttributeError` escapes before `self.flights.append(flight)` runs. -/
def process_bounds (tzmap : String → Int → Int) (account : Account)
    (confirmation_number : String) : List Bound → Outcome
  | [] => ⟨[], none, account⟩
  | b :: rest =>
      let flight := mkFlight tzmap confirmation_number b
      if b.departureStatus ≠ "DEPARTED" ∧ flight_is_scheduled account.flights flight = false then
        ⟨[Ev.spawnTimer flight], some schedule_check_in_missing, account⟩
      else
        let o := process_bounds tzmap account confirmation_number rest
        ⟨Ev.spawnTimer flight :: o.events, o.err, o.account⟩

/-- Model of `Account._get_reservation_info` (account.py lines 54-80).  `fetch` stands for
`make_request("GET", VIEW_RESERVATION_URL + confirmation_number, ...)` followed by
the `["viewReservationViewPage"]["bounds"]` projection; `Except.error` is a
`CheckInError`.  On failure the code sends one ERROR notification and returns. -/
def get_reservation_info (tzmap : String → Int → Int)
    (fetch : String → Except String (List Bound))
    (account : Account) (confirmation_number : String) : Outcome :=
  match fetch confirmation_number with
  | Except.error err =>
      ⟨[Ev.notifyCall
          (reservation_error_message account.first_name account.last_name confirmation_number err)
          (some NotificationLevel.ERROR)],
        none, account⟩
  | Except.ok bounds => process_bounds tzmap account confirmation_number bounds

/-- The `for reservation in reservations` loop of `Account.get_flights`
(account.py lines 36-38), sequencing `_get_reservation_info` over the batch;
an uncaught exception aborts the remainder of the batch. -/
def run_reservations (tzmap : String → Int → Int)
    (fetch : String → Except String (List Bound))
    (account : Account) : List String → Outcome
  | [] => ⟨[], none, account⟩
  | c :: rest =>
      let o := get_reservation_info tzmap fetch account c
      match o.err with
      | some e => ⟨o.events, some e, o.account⟩
      | none =>
          let o2 := run_reservations tzmap fetch o.account rest
          ⟨o.events ++ o2.events, o2.err, o2.account⟩

/-- One line of the new-flight summary (account.py line 104). -/
def flight_line (f : Flight) : String :=
  "Flight from " ++ f.departure_airport ++ " to " ++ f.destination_airport ++
    " at " ++ toString f.departure_time ++ " UTC\n"

/-- The header of the new-flight summary (account.py line 102). -/
def schedule_message_header (first_name last_name : String) : String :=
  "Successfully scheduled the following flights to check in for " ++ first_name ++
    " " ++ last_name ++ ":\n"

/-- Model of `Account._send_new_flight_notifications` (account.py lines 93-106): no event
when the flight count equals `prev_flight_len`, otherwise one INFO notification
whose body accumulates a line per flight of `self.flights[prev_flight_len:]`. -/
def send_new_flight_notifications (account : Account) (prev_flight_len : Nat) : List Ev :=
  if account.flights.length = prev_flight_len then []
  else
    [Ev.notifyCall
      ((account.flights.drop prev_flight_len).foldl (fun m f => m ++ flight_line f)
        (schedule_message_header account.first_name account.last_name))
      (some NotificationLevel.INFO)]

/-- Model of `Account.get_flights` (account.py lines 30-40): record the previous flight
count, process every reservation, then send the new-flight summary.  The summary
step is skipped when an exception escaped the loop. -/
def get_flights (tzmap : String → Int → Int)
    (fetch : String → Except String (List Bound))
    (account : Account) (confirmation_numbers : List String) : Outcome :=
  let prev_flight_len := account.flights.length
  let o := run_reservations tzmap fetch account confirmation_numbers
  match o.err with
  | some e => ⟨o.events, some e, o.account⟩
  | none => ⟨o.events ++ send_new_flight_notifications o.account prev_flight_len, none, o.account⟩

/-- Model of `Account.send_notification` (account.py lines 108-121).  Returns whether the
body reaches the apprise transport.  The level check is Python truthiness:
`if level and level < self.config.notification_level: return`, so `level = 0` is
falsy and is not filtered. -/
def send_notification (notification_urls : List String) (notification_level : Int)
    (body : String) (level : Option Int) : Bool :=
  if notification_urls.length = 0 then false
  else
    match level with
    | none => true
    | some l => if l ≠ 0 ∧ l < notification_level then false else true

/-- Model of `Account.send_notification` exactly as claim C7 states it: a message whose
level is set and numerically below the configured minimum severity is suppressed.
Written from the words of the specification, for comparison with `send_notification`
(which is translated from the source). -/
def send_notification_claimed (notification_urls : List String) (notification_level : Int)
    (body : String) (level : Option Int) : Bool :=
  if notification_urls.length = 0 then false
  else
    match level with
    | none => true
    | some l => if l < notification_level then false else true

/-- Python `list.remove`: drop the first element equal to `x`.  (Python would
raise `ValueError` when `x` is absent; `remove_departed_flights` only removes
elements taken from a snapshot of the same list, so that case cannot arise
there.) -/
def removeFirst (x : Flight) : List Flight → List Flight
  | [] => []
  | y :: ys => if y = x then ys else y :: removeFirst x ys

/-- The `for flight in self.flights[:]` loop of `Account.remove_departed_flights`
(account.py lines 123-135): iterate the snapshot (first list argument) while
removing departed flights from the live list (second argument). -/
def sweep_go (current_time : Int) : List Flight → List Flight → List Flight
  | [], acc => acc
  | f :: rest, acc =>
      sweep_go current_time rest
        (if f.departure_time < current_time then removeFirst f acc else acc)

/-- Model of `Account.remove_departed_flights` (account.py lines 123-135). -/
def remove_departed_flights (current_time : Int) (flights : List Flight) : List Flight :=
  sweep_go current_time flights flights

/-- Helper for reasoning about `sweep_go`: remove one occurrence of each element
of the second list, in order, from the first. -/
def removeAll : List Flight → List Flight → List Flight
  | acc, [] => acc
  | acc, x :: xs => removeAll (removeFirst x acc) xs

/-! ### Check-in request (lib/flight.py lines 92-137) -/

/-- One passenger of the boarding pass (the fields `_send_results` reads). -/
structure Passenger where
  name : String
  boardingGroup : String
  boardingPosition : String
deriving DecidableEq

/-- One flight of `reservation["checkInConfirmationPage"]["flights"]`. -/
structure BoardingFlight where
  passengers : List Passenger
deriving DecidableEq

/-- The `_links.checkIn` info of the first GET response (flight.py lines
109-110); the POST body is opaque to the claims. -/
structure CheckInLink where
  href : String
deriving DecidableEq

/-- flight.py line 17. -/
def CHECKIN_URL : String := "mobile-air-operations/v1/mobile-air-operations/page/check-in/"

/-- flight.py line 18. -/
def MANUAL_CHECKIN_URL : String := "https://mobile.southwest.com/check-in"

/-- The error message built at flight.py lines 114-117. -/
def checkin_error_message (confirmation_number account_name err : String) : String :=
  "Failed to check in to flight " ++ confirmation_number ++ " for " ++ account_name ++
    ". Reason: " ++ err ++ ".\nCheck in at this url: " ++ MANUAL_CHECKIN_URL ++ "\n"

/-- An apostrophe, kept out of string literals. -/
def quoteChar : String := String.singleton (Char.ofNat 39)

/-- The success message built by `Flight._send_results` (flight.py lines
126-134): header plus one line per passenger, nested left folds mirroring the
nested `for` loops. -/
def send_results_message (first_name last_name dep dest : String)
    (flights : List BoardingFlight) : String :=
  flights.foldl
    (fun m fl =>
      fl.passengers.foldl
        (fun m2 p => m2 ++ p.name ++ " got " ++ p.boardingGroup ++ p.boardingPosition ++ "!\n")
        m)
    ("Successfully checked in to flight from " ++ quoteChar ++ dep ++ quoteChar ++ " to " ++
      quoteChar ++ dest ++ quoteChar ++ " for " ++ first_name ++ " " ++ last_name ++ "!\n")

/-- Combined outcome of the two `make_request` calls inside the `try` block of
`Flight._check_in` (flight.py lines 106-112): the first GET fails, or the POST
fails, or both succeed.  `Except.error` is a `CheckInError`. -/
inductive CheckInNet
  | firstFails (err : String)
  | secondFails (link : CheckInLink) (err : String)
  | success (link : CheckInLink) (flights : List BoardingFlight)
deriving DecidableEq

/-- Model of `Flight._check_in` (flight.py lines 92-123) followed by `_send_results` on
success: the GET, then (unless it failed) the POST, then either the single ERROR
notification of the `except` block (after which the function returns — no retry)
or the success notification. -/
def check_in (first_name last_name confirmation_number dep dest : String)
    (net : CheckInNet) : List Ev :=
  let account_name := first_name ++ " " ++ last_name
  let site := CHECKIN_URL ++ confirmation_number
  match net with
  | CheckInNet.firstFails err =>
      [Ev.request "GET" site,
       Ev.notifyCall (checkin_error_message confirmation_number account_name err)
         (some NotificationLevel.ERROR)]
  | CheckInNet.secondFails link err =>
      [Ev.request "GET" site,
       Ev.request "POST" ("mobile-air-operations" ++ link.href),
       Ev.notifyCall (checkin_error_message confirmation_number account_name err)
         (some NotificationLevel.ERROR)]
  | CheckInNet.success link flights =>
      [Ev.request "GET" site,
       Ev.request "POST" ("mobile-air-operations" ++ link.href),
       Ev.notifyCall (send_results_message first_name last_name dep dest flights)
         (some NotificationLevel.INFO)]

/-! ### Theorems -/

/-- Claim C1: the check-in instant the timer waits for equals the UTC departure
instant of the flight minus 24 hours minus 1 second; because the local departure
time is converted to UTC before the subtraction, the instant is determined by
the UTC departure instant alone, independently of the offset function of the
departure airport. -/
theorem c1_checkin_instant (flight_date : Int) (airport_timezone : Int → Int) :
    check_in_time (convert_to_utc flight_date airport_timezone)
      = (flight_date - airport_timezone flight_date) - 24 * 60 * 60 - 1
    ∧ ∀ (d₂ : Int) (tz₂ : Int → Int),
        convert_to_utc flight_date airport_timezone = convert_to_utc d₂ tz₂ →
        check_in_time (convert_to_utc flight_date airport_timezone)
          = check_in_time (convert_to_utc d₂ tz₂) := by
  constructor
  · unfold check_in_time convert_to_utc
    ring
  · intro d₂ tz₂ h
    rw [h]

/-- Witness for `c1_checkin_instant`: a flight at local timestamp 3600 with a
constant offset of 3600 s east and one at local timestamp 7200 with offset
7200 s share the UTC departure instant 0 and hence the check-in instant. -/
theorem c1_checkin_instant_witness :
    check_in_time (convert_to_utc 3600 (fun _ => 3600))
      = (3600 - 3600) - 24 * 60 * 60 - 1
    ∧ check_in_time (convert_to_utc 3600 (fun _ => 3600))
        = check_in_time (convert_to_utc 7200 (fun _ => 7200)) := by
  have h := c1_checkin_instant 3600 (fun _ => 3600)
  exact ⟨h.1, h.2 7200 (fun _ => 7200) (by decide)⟩

/-- Claim C4 counterexample: check-in instant 700, first clock reading 0 (the
instant is in the future, the first sleep of 100 s and the header refresh run),
second clock reading 800 (the refresh overran the instant).  The remaining time
is −100; the code passes it to `time.sleep`, which raises `ValueError`, whereas
the claim says a sleep with negative remaining time is skipped. -/
theorem c4_wait_counterexample :
    (wait_for_check_in 700 0 800).2 = some sleepLengthError
    ∧ (claim_wait_for_check_in 700 0 800).2 = none
    ∧ wait_for_check_in 700 0 800 ≠ claim_wait_for_check_in 700 0 800 := by
  decide

/-- Claim C4 (amended): if the check-in instant is not after the first clock
reading, all waiting is skipped; otherwise the first sleep (until ten minutes
before the instant) and the header refresh run exactly when more than ten
minutes remain; the final sleep is issued unconditionally with the remaining
time at the second clock reading — when that time is negative the sleep call
raises `ValueError` instead of being skipped (zero sleeps for zero seconds),
and the only sleep performed in that case is the guarded first one. -/
theorem c4_wait_amended (checkin_time now0 now1 : Int) :
    (checkin_time ≤ now0 → wait_for_check_in checkin_time now0 now1 = ([], none))
    ∧ (now0 < checkin_time → 600 < checkin_time - now0 →
        (wait_for_check_in checkin_time now0 now1).1.take 2
          = [WEv.sleep (checkin_time - now0 - 600), WEv.refresh_headers])
    ∧ (now0 < checkin_time → checkin_time - now0 ≤ 600 →
        WEv.refresh_headers ∉ (wait_for_check_in checkin_time now0 now1).1)
    ∧ (now0 < checkin_time → now1 ≤ checkin_time →
        (wait_for_check_in checkin_time now0 now1).2 = none
        ∧ (wait_for_check_in checkin_time now0 now1).1.getLast?
            = some (WEv.sleep (checkin_time - now1)))
    ∧ (now0 < checkin_time → checkin_time < now1 →
        (wait_for_check_in checkin_time now0 now1).2 = some sleepLengthError
        ∧ ∀ s, WEv.sleep s ∈ (wait_for_check_in checkin_time now0 now1).1
            → s = checkin_time - now0 - 600) := by
  refine ⟨?_, ?_, ?_, ?_, ?_⟩
  · intro h
    simp [wait_for_check_in, h]
  · intro h1 h2
    have hn : ¬ checkin_time ≤ now0 := by omega
    have hp : checkin_time - now0 - 10 * 60 > 0 := by omega
    simp only [wait_for_check_in, if_neg hn, if_pos hp]
    split
    · simp
    · simp
  · intro h1 h2
    have hn : ¬ checkin_time ≤ now0 := by omega
    have hp : ¬ checkin_time - now0 - 10 * 60 > 0 := by omega
    simp only [wait_for_check_in, if_neg hn, if_neg hp]
    split <;> simp
  · intro h1 h2
    have hn : ¬ checkin_time ≤ now0 := by omega
    have hs : ¬ checkin_time - now1 < 0 := by omega
    simp only [wait_for_check_in, if_neg hn, if_neg hs]
    constructor
    · trivial
    · split <;> simp
  · intro h1 h2
    have hn : ¬ checkin_time ≤ now0 := by omega
    have hs : checkin_time - now1 < 0 := by omega
    simp only [wait_for_check_in, if_neg hn, if_pos hs]
    constructor
    · trivial
    · intro s hs2
      split at hs2
      · simp at hs2
        omega
      · simp at hs2

/-- Witness for `c4_wait_amended`: check-in instant 1000, clock readings 0 and
900 — the wait succeeds and its final sleep lasts until exactly the instant. -/
theorem c4_wait_amended_witness :
    ((0 : Int) < 1000 ∧ (900 : Int) ≤ 1000)
    ∧ (wait_for_check_in 1000 0 900).2 = none
    ∧ (wait_for_check_in 1000 0 900).1.getLast? = some (WEv.sleep (1000 - 900)) := by
  have h := (c4_wait_amended 1000 0 900).2.2.2.1 (by decide) (by decide)
  exact ⟨by decide, h.1, h.2⟩

/-- Claim C7 counterexample: one channel configured, minimum severity 2, message
level 0 — the level is set and numerically below the minimum, yet the message
reaches the transport, because `if level and level < ...` treats 0 as falsy. -/
theorem c7_send_counterexample :
    send_notification ["url"] 2 "test" (some 0) = true
    ∧ send_notification_claimed ["url"] 2 "test" (some 0) = false := by
  decide

/-- Claim C7 (amended): sending is a no-op when no channels are configured; with
channels configured, a message is suppressed exactly when its level is set,
nonzero (Python truthiness), and numerically below the configured minimum
severity; a message with no level always reaches the transport. -/
theorem c7_send_amended (notification_urls : List String) (notification_level : Int)
    (body : String) (level : Option Int) :
    (notification_urls = [] →
      send_notification notification_urls notification_level body level = false)
    ∧ (notification_urls ≠ [] →
        (send_notification notification_urls notification_level body level = false
          ↔ ∃ l, level = some l ∧ l ≠ 0 ∧ l < notification_level))
    ∧ (notification_urls ≠ [] → level = none →
        send_notification notification_urls notification_level body level = true) := by
  refine ⟨?_, ?_, ?_⟩
  · intro h
    simp [send_notification, h]
  · intro h
    have hlen : ¬ notification_urls.length = 0 := by
      simpa [List.length_eq_zero] using h
    cases level with
    | none => simp [send_notification, hlen]
    | some l =>
        simp only [send_notification, if_neg hlen]
        split
        · rename_i hc
          simp only [true_iff]
          exact ⟨l, rfl, hc.1, hc.2⟩
        · rename_i hc
          simp only [Bool.true_eq_false, false_iff, not_exists, Option.some.injEq]
          intro x hx
          rcases hx with ⟨rfl, h0, hlt⟩
          exact hc ⟨h0, hlt⟩
  · intro h hn
    subst hn
    have hlen : ¬ notification_urls.length = 0 := by
      simpa [List.length_eq_zero] using h
    simp [send_notification, hlen]

/-- Witness for `c7_send_amended`: with one channel and minimum severity 2, a
level-1 message is suppressed and a level-less message reaches the transport. -/
theorem c7_send_amended_witness :
    (["url"] ≠ ([] : List String))
    ∧ send_notification ["url"] 2 "body" (some 1) = false
    ∧ send_notification ["url"] 2 "body" none = true := by
  refine ⟨by decide, ?_, ?_⟩
  · exact ((c7_send_amended ["url"] 2 "body" (some 1)).2.1 (by decide)).mpr
      ⟨1, rfl, by decide, by decide⟩
  · exact (c7_send_amended ["url"] 2 "body" none).2.2 (by decide) rfl

/-- Lemma: `sweep_go` folds the Python `list.remove` call over the snapshot: it removes one
occurrence of each departed element of the snapshot from the live list. -/
theorem sweep_go_eq_removeAll (current_time : Int) (s : List Flight) :
    ∀ acc, sweep_go current_time s acc
      = removeAll acc (s.filter (fun f => decide (f.departure_time < current_time))) := by
  induction s with
  | nil => intro acc; rfl
  | cons f rest ih =>
      intro acc
      by_cases h : f.departure_time < current_time
      · rw [@List.filter_cons_of_pos Flight
            (fun g => decide (g.departure_time < current_time)) f rest (decide_eq_true h)]
        simp only [sweep_go, if_pos h, removeAll]
        exact ih (removeFirst f acc)
      · rw [@List.filter_cons_of_neg Flight
            (fun g => decide (g.departure_time < current_time)) f rest
            (fun hc => h (of_decide_eq_true hc))]
        simp only [sweep_go, if_neg h]
        exact ih acc

/-- Removing elements all different from `x` never touches a leading `x`. -/
theorem removeAll_cons_of_ne (x : Flight) (ws : List Flight) :
    ∀ acc : List Flight, (∀ y ∈ ws, y ≠ x) →
      removeAll (x :: acc) ws = x :: removeAll acc ws := by
  induction ws with
  | nil => intro acc _; rfl
  | cons w ws ih =>
      intro acc h
      have hxw : ¬ x = w := fun he => h w (List.mem_cons_self w ws) he.symm
      simp only [removeAll, removeFirst, if_neg hxw]
      exact ih (removeFirst w acc) (fun y hy => h y (List.mem_cons_of_mem _ hy))

/-- Removing from a list one occurrence of each of its own elements satisfying
`p` leaves exactly the elements not satisfying `p`, in order. -/
theorem removeAll_self_filter (p : Flight → Bool) :
    ∀ l : List Flight, removeAll l (l.filter p) = l.filter (fun x => ! p x) := by
  intro l
  induction l with
  | nil => rfl
  | cons x xs ih =>
      by_cases h : p x
      · rw [List.filter_cons_of_pos h, List.filter_cons_of_neg (by simp [h])]
        simp only [removeAll, removeFirst, if_pos rfl]
        exact ih
      · rw [List.filter_cons_of_neg h, List.filter_cons_of_pos (by simp [h])]
        rw [removeAll_cons_of_ne x _ _ ?_, ih]
        intro y hy he
        have hz := List.of_mem_filter hy
        rw [he] at hz
        exact h hz

/-- Claim C5: the departed-flight sweep removes exactly the flights whose
departure instant is strictly before `now` and keeps all others in order
(iterating a snapshot, so removing an element never skips an adjacent one);
with departures at T−1 and T+1 evaluated at now = T only the T−1 flight is
removed, and two adjacent departed flights are both removed. -/
theorem c5_remove_departed (current_time : Int) (flights : List Flight) :
    remove_departed_flights current_time flights
      = flights.filter (fun f => ! decide (f.departure_time < current_time))
    ∧ (∀ (T : Int) (f g : Flight),
        f.departure_time = T - 1 → g.departure_time = T + 1 →
        remove_departed_flights T [f, g] = [g])
    ∧ (∀ (T : Int) (f g : Flight),
        f.departure_time = T - 1 → g.departure_time = T - 2 →
        remove_departed_flights T [f, g] = []) := by
  refine ⟨?_, ?_, ?_⟩
  · rw [remove_departed_flights, sweep_go_eq_removeAll, removeAll_self_filter]
  · intro T f g hf hg
    rw [remove_departed_flights, sweep_go_eq_removeAll, removeAll_self_filter]
    have h1 : f.departure_time < T := by omega
    have h2 : ¬ g.departure_time < T := by omega
    simp [h1, h2]
  · intro T f g hf hg
    rw [remove_departed_flights, sweep_go_eq_removeAll, removeAll_self_filter]
    have h1 : f.departure_time < T := by omega
    have h2 : g.departure_time < T := by omega
    simp [h1, h2]

/-- Witness for `c5_remove_departed`: at now = 0, a flight departing at −1 is
swept and a flight departing at 1 is kept. -/
theorem c5_remove_departed_witness :
    remove_departed_flights 0 [⟨"AAA", -1, "LAX", "JFK"⟩, ⟨"BBB", 1, "SFO", "MDW"⟩]
      = [⟨"BBB", 1, "SFO", "MDW"⟩] :=
  (c5_remove_departed 0 []).2.1 0 ⟨"AAA", -1, "LAX", "JFK"⟩ ⟨"BBB", 1, "SFO", "MDW"⟩
    (by decide) (by decide)

/-- Left folds of the summary-line accumulator only ever extend the
accumulator on the right. -/
theorem foldl_flight_line_shift (l : List Flight) :
    ∀ init : String, ∃ s : String,
      l.foldl (fun m f => m ++ flight_line f) init = init ++ s := by
  induction l with
  | nil => intro init; exact ⟨"", by simp⟩
  | cons f rest ih =>
      intro init
      obtain ⟨s, hs⟩ := ih (init ++ flight_line f)
      refine ⟨flight_line f ++ s, ?_⟩
      rw [List.foldl_cons, hs, String.append_assoc]

/-- Every flight folded into the summary body appears in it as a whole line. -/
theorem foldl_flight_line_mem (l : List Flight) :
    ∀ (init : String) (f : Flight), f ∈ l →
      ∃ pre post, l.foldl (fun m g => m ++ flight_line g) init
        = pre ++ flight_line f ++ post := by
  induction l with
  | nil => intro _ f h; cases h
  | cons g rest ih =>
      intro init f h
      rcases List.mem_cons.mp h with he | hm
      · subst he
        obtain ⟨s, hs⟩ := foldl_flight_line_shift rest (init ++ flight_line f)
        exact ⟨init, s, by rw [List.foldl_cons]; exact hs⟩
      · obtain ⟨pre, post, hp⟩ := ih (init ++ flight_line g) f hm
        exact ⟨pre, post, by rw [List.foldl_cons]; exact hp⟩

/-- Claim C9: after a reservation-processing call (during which the flight list
only ever grows), if the tracked-flight count grew then exactly one INFO-level
notification is sent and its body lists the line of every newly added flight
(airport pair and UTC departure time); if the count did not grow, nothing is sent. -/
theorem c9_new_flight_summary (account : Account) (prev_flight_len : Nat)
    (hmono : prev_flight_len ≤ account.flights.length) :
    (account.flights.length = prev_flight_len →
      send_new_flight_notifications account prev_flight_len = [])
    ∧ (prev_flight_len < account.flights.length →
        ∃ body,
          send_new_flight_notifications account prev_flight_len
            = [Ev.notifyCall body (some NotificationLevel.INFO)]
          ∧ ∀ f ∈ account.flights.drop prev_flight_len,
              ∃ pre post, body = pre ++ flight_line f ++ post) := by
  constructor
  · intro h
    simp [send_new_flight_notifications, h]
  · intro h
    have hne : ¬ account.flights.length = prev_flight_len := by omega
    refine ⟨(account.flights.drop prev_flight_len).foldl (fun m f => m ++ flight_line f)
        (schedule_message_header account.first_name account.last_name), ?_, ?_⟩
    · simp [send_new_flight_notifications, hne]
    · intro f hf
      exact foldl_flight_line_mem _ _ f hf

/-- Witness for `c9_new_flight_summary`: one new flight yields one INFO
notification whose body contains the line for that flight. -/
theorem c9_new_flight_summary_witness :
    ((0 : Nat) ≤ (Account.mk "John" "Doe" [⟨"ABC123", 5, "LAX", "JFK"⟩]).flights.length)
    ∧ ∃ body,
        send_new_flight_notifications ⟨"John", "Doe", [⟨"ABC123", 5, "LAX", "JFK"⟩]⟩ 0
          = [Ev.notifyCall body (some NotificationLevel.INFO)]
        ∧ ∃ pre post, body = pre ++ flight_line ⟨"ABC123", 5, "LAX", "JFK"⟩ ++ post := by
  refine ⟨by decide, ?_⟩
  obtain ⟨body, h1, h2⟩ :=
    (c9_new_flight_summary ⟨"John", "Doe", [⟨"ABC123", 5, "LAX", "JFK"⟩]⟩ 0 (by decide)).2
      (by decide)
  exact ⟨body, h1, h2 ⟨"ABC123", 5, "LAX", "JFK"⟩ (by simp)⟩

/-- Claim C6: a failed reservation-detail fetch emits exactly one ERROR-level
notification whose body names the traveler and the confirmation number, leaves
the tracked-flight collection unchanged, and does not abort the batch: the
remaining reservations are still processed. -/
theorem c6_reservation_error_isolated (tzmap : String → Int → Int)
    (fetch : String → Except String (List Bound)) (account : Account)
    (confirmation_number err : String) (rest : List String)
    (hfail : fetch confirmation_number = Except.error err) :
    get_reservation_info tzmap fetch account confirmation_number
      = ⟨[Ev.notifyCall
            (reservation_error_message account.first_name account.last_name
              confirmation_number err)
            (some NotificationLevel.ERROR)],
          none, account⟩
    ∧ (∃ pre mid post,
        reservation_error_message account.first_name account.last_name confirmation_number err
          = pre ++ account.first_name ++ " " ++ account.last_name ++ mid
              ++ confirmation_number ++ post)
    ∧ run_reservations tzmap fetch account (confirmation_number :: rest)
        = ⟨Ev.notifyCall
              (reservation_error_message account.first_name account.last_name
                confirmation_number err)
              (some NotificationLevel.ERROR)
            :: (run_reservations tzmap fetch account rest).events,
           (run_reservations tzmap fetch account rest).err,
           (run_reservations tzmap fetch account rest).account⟩ := by
  refine ⟨?_, ?_, ?_⟩
  · simp only [get_reservation_info, hfail]
  · refine ⟨"Failed to retrieve reservation for ", " with confirmation number ",
      ". Reason: " ++ err ++ ".\nMake sure the flight information is correct and try again.\n",
      ?_⟩
    simp only [reservation_error_message, String.append_assoc]
  · simp only [run_reservations, get_reservation_info, hfail, List.singleton_append]

/-- Witness for `c6_reservation_error_isolated`: a fetch that always fails with
reason "mock" yields exactly the one ERROR notification, account unchanged. -/
theorem c6_reservation_error_isolated_witness :
    ((fun _ : String => (Except.error "mock" : Except String (List Bound))) "BAD"
        = Except.error "mock")
    ∧ get_reservation_info (fun _ _ => 0) (fun _ => Except.error "mock")
        ⟨"John", "Doe", []⟩ "BAD"
      = ⟨[Ev.notifyCall (reservation_error_message "John" "Doe" "BAD" "mock")
            (some NotificationLevel.ERROR)], none, ⟨"John", "Doe", []⟩⟩ :=
  ⟨rfl,
    (c6_reservation_error_isolated (fun _ _ => 0) (fun _ => Except.error "mock")
      ⟨"John", "Doe", []⟩ "BAD" "mock" [] rfl).1⟩

/-- The check-in failure message names the confirmation number and the manual
check-in URL. -/
theorem checkin_error_message_names (confirmation_number account_name err : String) :
    (∃ pre post, checkin_error_message confirmation_number account_name err
        = pre ++ confirmation_number ++ post)
    ∧ (∃ pre post, checkin_error_message confirmation_number account_name err
        = pre ++ MANUAL_CHECKIN_URL ++ post) := by
  constructor
  · refine ⟨"Failed to check in to flight ",
      " for " ++ account_name ++ ". Reason: " ++ err ++ ".\nCheck in at this url: "
        ++ MANUAL_CHECKIN_URL ++ "\n", ?_⟩
    simp only [checkin_error_message, String.append_assoc]
  · refine ⟨"Failed to check in to flight " ++ confirmation_number ++ " for " ++ account_name
        ++ ". Reason: " ++ err ++ ".\nCheck in at this url: ", "\n", ?_⟩
    simp only [checkin_error_message, String.append_assoc]

/-- Claim C8: when either check-in request fails, the timer emits exactly one
ERROR-level notification — the last event, whose body names the confirmation
number and the manual check-in URL — and terminates without retrying: the
preceding events are pairwise-distinct requests. -/
theorem c8_checkin_failure (first_name last_name confirmation_number dep dest err : String)
    (net : CheckInNet)
    (hfail : net = CheckInNet.firstFails err
      ∨ ∃ link, net = CheckInNet.secondFails link err) :
    ∃ reqs,
      check_in first_name last_name confirmation_number dep dest net
        = reqs ++ [Ev.notifyCall
            (checkin_error_message confirmation_number (first_name ++ " " ++ last_name) err)
            (some NotificationLevel.ERROR)]
      ∧ (∀ e ∈ reqs, ∃ m s, e = Ev.request m s)
      ∧ reqs.Nodup
      ∧ (∃ pre post,
          checkin_error_message confirmation_number (first_name ++ " " ++ last_name) err
            = pre ++ confirmation_number ++ post)
      ∧ (∃ pre post,
          checkin_error_message confirmation_number (first_name ++ " " ++ last_name) err
            = pre ++ MANUAL_CHECKIN_URL ++ post) := by
  rcases hfail with h | ⟨link, h⟩
  · subst h
    refine ⟨[Ev.request "GET" (CHECKIN_URL ++ confirmation_number)], rfl, ?_, by simp, ?_, ?_⟩
    · intro e he
      simp only [List.mem_singleton] at he
      exact ⟨"GET", CHECKIN_URL ++ confirmation_number, he⟩
    · exact (checkin_error_message_names confirmation_number
        (first_name ++ " " ++ last_name) err).1
    · exact (checkin_error_message_names confirmation_number
        (first_name ++ " " ++ last_name) err).2
  · subst h
    refine ⟨[Ev.request "GET" (CHECKIN_URL ++ confirmation_number),
        Ev.request "POST" ("mobile-air-operations" ++ link.href)], rfl, ?_, by simp, ?_, ?_⟩
    · intro e he
      rcases List.mem_cons.mp he with h1 | h1
      · exact ⟨"GET", CHECKIN_URL ++ confirmation_number, h1⟩
      · simp only [List.mem_singleton] at h1
        exact ⟨"POST", "mobile-air-operations" ++ link.href, h1⟩
    · exact (checkin_error_message_names confirmation_number
        (first_name ++ " " ++ last_name) err).1
    · exact (checkin_error_message_names confirmation_number
        (first_name ++ " " ++ last_name) err).2

/-- Witness for `c8_checkin_failure`: a failing first request for confirmation
number ABC123. -/
theorem c8_checkin_failure_witness :
    ∃ reqs,
      check_in "John" "Doe" "ABC123" "LAX" "JFK" (CheckInNet.firstFails "mock")
        = reqs ++ [Ev.notifyCall
            (checkin_error_message "ABC123" ("John" ++ " " ++ "Doe") "mock")
            (some NotificationLevel.ERROR)]
      ∧ (∀ e ∈ reqs, ∃ m s, e = Ev.request m s)
      ∧ reqs.Nodup
      ∧ (∃ pre post, checkin_error_message "ABC123" ("John" ++ " " ++ "Doe") "mock"
            = pre ++ "ABC123" ++ post)
      ∧ (∃ pre post, checkin_error_message "ABC123" ("John" ++ " " ++ "Doe") "mock"
            = pre ++ MANUAL_CHECKIN_URL ++ post) :=
  c8_checkin_failure "John" "Doe" "ABC123" "LAX" "JFK" "mock"
    (CheckInNet.firstFails "mock") (Or.inl rfl)

/-- The bound-processing loop never appends to the flight collection: the append
at account.py line 80 is unreachable because line 79 raises first. -/
theorem process_bounds_account (tzmap : String → Int → Int) (account : Account)
    (confirmation_number : String) (bounds : List Bound) :
    (process_bounds tzmap account confirmation_number bounds).account = account := by
  induction bounds with
  | nil => rfl
  | cons b rest ih =>
      simp only [process_bounds]
      split
      · rfl
      · exact ih

/-- Claim C10: the `Flight` constructor spawns the background timer process
before the departure-status and deduplication checks of the caller run, so a timer is
spawned even for a DEPARTED or already-tracked bound, and such a flight is never
appended: the collection is unchanged. -/
theorem c10_constructor_spawns_timer (tzmap : String → Int → Int) (account : Account)
    (confirmation_number : String) (b : Bound) (rest : List Bound)
    (hskip : b.departureStatus = "DEPARTED"
      ∨ flight_is_scheduled account.flights (mkFlight tzmap confirmation_number b) = true) :
    (process_bounds tzmap account confirmation_number (b :: rest)).events
      = Ev.spawnTimer (mkFlight tzmap confirmation_number b)
          :: (process_bounds tzmap account confirmation_number rest).events
    ∧ (process_bounds tzmap account confirmation_number (b :: rest)).account = account := by
  have hcond : ¬ (b.departureStatus ≠ "DEPARTED"
      ∧ flight_is_scheduled account.flights (mkFlight tzmap confirmation_number b) = false) := by
    rcases hskip with h | h
    · exact fun hc => hc.1 h
    · exact fun hc => by simp [h] at hc
  constructor
  · simp only [process_bounds, if_neg hcond]
  · exact process_bounds_account tzmap account confirmation_number (b :: rest)

/-- Witness for `c10_constructor_spawns_timer`: a DEPARTED bound still spawns a
timer and is not appended. -/
theorem c10_constructor_spawns_timer_witness :
    ((⟨"DEPARTED", "LAX", "LAX", "JFK", 0⟩ : Bound).departureStatus = "DEPARTED"
      ∨ flight_is_scheduled (Account.mk "John" "Doe" []).flights
          (mkFlight (fun _ _ => 0) "ABC123" ⟨"DEPARTED", "LAX", "LAX", "JFK", 0⟩) = true)
    ∧ (process_bounds (fun _ _ => 0) ⟨"John", "Doe", []⟩ "ABC123"
          [⟨"DEPARTED", "LAX", "LAX", "JFK", 0⟩]).events
        = [Ev.spawnTimer (mkFlight (fun _ _ => 0) "ABC123" ⟨"DEPARTED", "LAX", "LAX", "JFK", 0⟩)]
    ∧ (process_bounds (fun _ _ => 0) ⟨"John", "Doe", []⟩ "ABC123"
          [⟨"DEPARTED", "LAX", "LAX", "JFK", 0⟩]).account = ⟨"John", "Doe", []⟩ := by
  have h := c10_constructor_spawns_timer (fun _ _ => 0) ⟨"John", "Doe", []⟩ "ABC123"
      ⟨"DEPARTED", "LAX", "LAX", "JFK", 0⟩ [] (Or.inl rfl)
  exact ⟨Or.inl rfl, h.1, h.2⟩

/-- Claim C2 (code bug): a successful fetch with one non-departed, not-yet-tracked
bound.  The `Flight` constructor runs and spawns the timer process, but the
subsequent `flight.schedule_check_in()` call (account.py line 79) raises
`AttributeError` — `Flight` defines no such method — so
`self.flights.append(flight)` on line 80 never runs: the exception escapes and
the tracked-flight collection is unchanged, contradicting the claimed append. -/
theorem c2_schedulable_bound_crashes :
    get_reservation_info (fun _ _ => 0)
        (fun _ => Except.ok [⟨"WAITING", "LAX", "LAX", "JFK", 1000000⟩])
        ⟨"John", "Doe", []⟩ "ABC123"
      = ⟨[Ev.spawnTimer
            (mkFlight (fun _ _ => 0) "ABC123" ⟨"WAITING", "LAX", "LAX", "JFK", 1000000⟩)],
         some schedule_check_in_missing, ⟨"John", "Doe", []⟩⟩ := by
  rfl

/-- Claim C3 (code bug): two reservations under different confirmation numbers
resolving to the same (instant, departure, destination) bound.  The claim
expects exactly one tracked flight; the code raises `AttributeError` while
processing the first bound and tracks zero flights. -/
theorem c3_duplicate_reservations_crash :
    (get_flights (fun _ _ => 0)
        (fun _ => Except.ok [⟨"WAITING", "LAX", "LAX", "JFK", 2000000⟩])
        ⟨"John", "Doe", []⟩ ["AAA111", "BBB222"]).account.flights = []
    ∧ (get_flights (fun _ _ => 0)
        (fun _ => Except.ok [⟨"WAITING", "LAX", "LAX", "JFK", 2000000⟩])
        ⟨"John", "Doe", []⟩ ["AAA111", "BBB222"]).err = some schedule_check_in_missing
    ∧ ¬ (get_flights (fun _ _ => 0)
        (fun _ => Except.ok [⟨"WAITING", "LAX", "LAX", "JFK", 2000000⟩])
        ⟨"John", "Doe", []⟩ ["AAA111", "BBB222"]).account.flights.length = 1 := by
  refine ⟨rfl, rfl, by decide⟩

end CheckIn
